import Mathlib

/-!
Verification of the phlox provider-abstraction layer: the OpenAI chat/embedding
adapters (`server/utils/openai_client.py`, `server/utils/openai_embedding.py`)
and the provider factory (`server/utils/client_factory.py`), shallowly embedded
in Lean.  Python dicts are modelled as insertion-ordered association lists,
JSON values by the inductive `Json`, HTTP responses by `HttpResponse` (status
code, raw text, parsed JSON body), and a raised Python exception by
`Except.error`.
-/

/-- A JSON value, as produced by `json.dumps` / consumed by `response.json()`.
Python `None` is `Json.null`; numbers are modelled as rationals. -/
inductive Json where
  | null : Json
  | bool : Bool → Json
  | num : ℚ → Json
  | str : String → Json
  | arr : List Json → Json
  | obj : List (String × Json) → Json

/-- Python `d[k]` / `d.get(k)` lookup on a dict modelled as an ordered
association list: the value at the first matching key, if any. -/
def pyDictLookup (d : List (String × Json)) (k : String) : Option Json :=
  (d.find? (fun p => p.1 == k)).map (fun p => p.2)

/-- Python `d.get(k, dflt)`: the stored value when the key is present,
otherwise the default. -/
def pyDictGet (d : List (String × Json)) (k : String) (dflt : Json) : Json :=
  match pyDictLookup d k with
  | some v => v
  | none => dflt

/-- Python `j[k]` on a JSON value: succeeds with the field value only when `j`
is an object holding key `k`; `none` models the raised KeyError/TypeError. -/
def Json.getField : Json → String → Option Json
  | .obj fields, k => pyDictLookup fields k
  | _, _ => none

/-- Python `j[i]` integer indexing: succeeds only when `j` is an array with an
`i`-th element; `none` models the raised IndexError/TypeError. -/
def Json.getIndex : Json → Nat → Option Json
  | .arr xs, i => xs[i]?
  | _, _ => none

/-- Python `s.rstrip('/')`: remove every trailing `'/'` character. -/
def pyRstripSlash (s : String) : String :=
  String.mk ((s.data.reverse.dropWhile (fun c => c == '/')).reverse)

/-- An HTTP response as the adapters observe it: `status` is
`response.status` / `response.status_code`, `text` the raw body text, and
`body` the JSON value `response.json()` parses to. -/
structure HttpResponse where
  status : Nat
  text : String
  body : Json

/-- State stored by `AsyncClient.__init__` (openai_client.py lines 18–31):
the host with trailing slashes stripped, the API key, and the headers dict. -/
structure AsyncClient where
  host : String
  api_key : String
  headers : List (String × String)

/-- `AsyncClient.__init__(host, api_key)` (openai_client.py lines 18–31). -/
def AsyncClient.init (host : String) (api_key : String) : AsyncClient :=
  ⟨pyRstripSlash host, api_key,
   [("Content-Type", "application/json"), ("Authorization", "Bearer " ++ api_key)]⟩

/-- The URL `AsyncClient.chat` posts to: `f"{self.host}/chat/completions"`
(openai_client.py line 75). -/
def AsyncClient.chatUrl (c : AsyncClient) : String :=
  c.host ++ "/chat/completions"

/-- The URL `AsyncClient.embeddings` posts to: `f"{self.host}/embeddings"`
(openai_client.py line 119). -/
def AsyncClient.embeddingsUrl (c : AsyncClient) : String :=
  c.host ++ "/embeddings"

/-- State stored by `Client.__init__` (openai_client.py lines 143–156). -/
structure Client where
  host : String
  api_key : String
  headers : List (String × String)

/-- `Client.__init__(host, api_key)` (openai_client.py lines 143–156). -/
def Client.init (host : String) (api_key : String) : Client :=
  ⟨pyRstripSlash host, api_key,
   [("Content-Type", "application/json"), ("Authorization", "Bearer " ++ api_key)]⟩

/-- The URL `Client.chat` posts to: `f"{self.host}/chat/completions"`
(openai_client.py line 201). -/
def Client.chatUrl (c : Client) : String :=
  c.host ++ "/chat/completions"

/-- Python truthiness of the `format` argument (`if format:`): a dict is
truthy iff it is present and non-empty. -/
def pyTruthyDict (d : Option (List (String × Json))) : Bool :=
  match d with
  | some fields => !fields.isEmpty
  | none => false

/-- Python truthiness of the `tools` argument (`if tools:`): a list is truthy
iff it is present and non-empty. -/
def pyTruthyList (l : Option (List Json)) : Bool :=
  match l with
  | some xs => !xs.isEmpty
  | none => false

/-- The `request_data` dict built by `AsyncClient.chat`
(openai_client.py lines 54–70): `options = options or {}`; then
`{"model": model, "messages": messages,
  "temperature": options.get("temperature", 0.7),
  "max_tokens": options.get("num_predict", None)}`;
then `request_data["response_format"] = {"type": "json_object"}` if `format`
is truthy and `request_data["tools"] = tools` if `tools` is truthy. -/
def AsyncClient.chatRequestData (model : String) (messages : List Json)
    (options : Option (List (String × Json)))
    (format : Option (List (String × Json))) (tools : Option (List Json)) :
    List (String × Json) :=
  let opts := options.getD []
  let request_data : List (String × Json) :=
    [("model", .str model), ("messages", .arr messages),
     ("temperature", pyDictGet opts "temperature" (.num 0.7)),
     ("max_tokens", pyDictGet opts "num_predict" .null)]
  let request_data :=
    if pyTruthyDict format then
      request_data ++ [("response_format", .obj [("type", .str "json_object")])]
    else request_data
  if pyTruthyList tools then
    request_data ++ [("tools", .arr (tools.getD []))]
  else request_data

/-- The `request_data` dict built by `Client.chat`
(openai_client.py lines 181–197), textually the same construction as the
asynchronous variant. -/
def Client.chatRequestData (model : String) (messages : List Json)
    (options : Option (List (String × Json)))
    (format : Option (List (String × Json))) (tools : Option (List Json)) :
    List (String × Json) :=
  let opts := options.getD []
  let request_data : List (String × Json) :=
    [("model", .str model), ("messages", .arr messages),
     ("temperature", pyDictGet opts "temperature" (.num 0.7)),
     ("max_tokens", pyDictGet opts "num_predict" .null)]
  let request_data :=
    if pyTruthyDict format then
      request_data ++ [("response_format", .obj [("type", .str "json_object")])]
    else request_data
  if pyTruthyList tools then
    request_data ++ [("tools", .arr (tools.getD []))]
  else request_data

/-- Response handling of `AsyncClient.chat` (openai_client.py lines 79–95):
a non-200 status raises `Exception(f"OpenAI API error: {error_text}")`;
otherwise the OpenAI response is converted to the Ollama shape
`{"model": model,
  "message": {"role": "assistant",
              "content": result["choices"][0]["message"]["content"]},
  "tool_calls": result["choices"][0]["message"].get("tool_calls", []),
  "done": True}`; a failed lookup in the conversion raises (modelled as
`Except.error "KeyError"`). -/
def AsyncClient.chatRespond (model : String) (resp : HttpResponse) :
    Except String Json :=
  if resp.status ≠ 200 then
    .error ("OpenAI API error: " ++ resp.text)
  else
    match (resp.body.getField "choices").bind (fun choices =>
            (choices.getIndex 0).bind (fun c0 =>
              (c0.getField "message").bind (fun msg =>
                (msg.getField "content").map (fun content =>
                  Json.obj
                    [("model", .str model),
                     ("message", .obj [("role", .str "assistant"),
                                       ("content", content)]),
                     ("tool_calls", (msg.getField "tool_calls").getD (.arr [])),
                     ("done", .bool true)])))) with
    | some r => .ok r
    | none => .error "KeyError"

/-- Response handling of `Client.chat` (openai_client.py lines 206–221),
textually the same conversion as the asynchronous variant. -/
def Client.chatRespond (model : String) (resp : HttpResponse) :
    Except String Json :=
  if resp.status ≠ 200 then
    .error ("OpenAI API error: " ++ resp.text)
  else
    match (resp.body.getField "choices").bind (fun choices =>
            (choices.getIndex 0).bind (fun c0 =>
              (c0.getField "message").bind (fun msg =>
                (msg.getField "content").map (fun content =>
                  Json.obj
                    [("model", .str model),
                     ("message", .obj [("role", .str "assistant"),
                                       ("content", content)]),
                     ("tool_calls", (msg.getField "tool_calls").getD (.arr [])),
                     ("done", .bool true)])))) with
    | some r => .ok r
    | none => .error "KeyError"

/-- The request dict built by `AsyncClient.embeddings`
(openai_client.py lines 111–114): `{"model": model, "input": prompt}`. -/
def AsyncClient.embeddingsRequestData (model : String) (prompt : String) :
    List (String × Json) :=
  [("model", .str model), ("input", .str prompt)]

/-- Response handling of `AsyncClient.embeddings`
(openai_client.py lines 123–133): a non-200 status raises
`Exception(f"OpenAI API error: {error_text}")`; otherwise it returns
`{"embedding": result["data"][0]["embedding"]}`, a failed lookup raising
(modelled as `Except.error "KeyError"`). -/
def AsyncClient.embeddingsRespond (resp : HttpResponse) : Except String Json :=
  if resp.status ≠ 200 then
    .error ("OpenAI API error: " ++ resp.text)
  else
    match (resp.body.getField "data").bind (fun data =>
            (data.getIndex 0).bind (fun d0 =>
              (d0.getField "embedding").map (fun e =>
                Json.obj [("embedding", e)]))) with
    | some r => .ok r
    | none => .error "KeyError"

/-- Names of the public operations defined by `class AsyncClient`
(openai_client.py lines 13–136): `chat` and `embeddings`. -/
def AsyncClient.methodNames : List String := ["chat", "embeddings"]

/-- Names of the public operations defined by `class Client`
(openai_client.py lines 138–225): only `chat` — the class defines no
`embeddings` method. -/
def Client.methodNames : List String := ["chat"]

/-- State stored by `OpenAIEmbeddingFunction.__init__`
(openai_embedding.py lines 17–32): API key, model name, base URL with
trailing slashes stripped, and the headers dict. -/
structure OpenAIEmbeddingFunction where
  api_key : String
  model_name : String
  base_url : String
  headers : List (String × String)

/-- `OpenAIEmbeddingFunction.__init__(api_key, model_name, base_url)`
(openai_embedding.py lines 17–32). -/
def OpenAIEmbeddingFunction.init (api_key : String) (model_name : String)
    (base_url : String) : OpenAIEmbeddingFunction :=
  ⟨api_key, model_name, pyRstripSlash base_url,
   [("Content-Type", "application/json"), ("Authorization", "Bearer " ++ api_key)]⟩

/-- The URL `OpenAIEmbeddingFunction.__call__` posts to:
`f"{self.base_url}/embeddings"` (openai_embedding.py line 50). -/
def OpenAIEmbeddingFunction.embeddingsUrl (f : OpenAIEmbeddingFunction) : String :=
  f.base_url ++ "/embeddings"

/-- `OpenAIEmbeddingFunction.__call__(texts)` (openai_embedding.py
lines 34–70): if `texts` is empty it returns `[]` before any network code
runs, so the result cannot depend on `resp`; otherwise a non-200 status raises
`Exception(f"OpenAI API error: {response.text}")`, and on success it returns
`[item["embedding"] for item in result["data"]]`, a failed lookup or a
non-list `data` raising (modelled as `Except.error`). -/
def OpenAIEmbeddingFunction.call (texts : List String) (resp : HttpResponse) :
    Except String (List Json) :=
  if texts.isEmpty then
    .ok []
  else if resp.status ≠ 200 then
    .error ("OpenAI API error: " ++ resp.text)
  else
    match resp.body.getField "data" with
    | some (.arr items) =>
        match items.mapM (fun it => it.getField "embedding") with
        | some embeddings => .ok embeddings
        | none => .error "KeyError"
    | _ => .error "TypeError"

/-- Modelled from the spec: the local (Ollama) blocking chat client is an
external collaborator whose code is not under src/; per §4.2 it is a thin
pass-through constructed from a base-URL string, so it is modelled as storing
the host it was constructed with. -/
structure OllamaClient where
  host : String

/-- Modelled from the spec: the local (Ollama) non-blocking chat client,
modelled like `OllamaClient` as storing the host it was constructed with. -/
structure AsyncOllamaClient where
  host : String

/-- Modelled from the spec: the local (Ollama) embedding function (an external
collaborator), constructed by the factory with a URL and a model name, which
it stores. -/
structure OllamaEmbeddingFunction where
  url : String
  model_name : String

/-- The configuration record, per the repository's own schema
(`server/schemas/config.py`, `class Config`): every field is a string and is
present (pydantic supplies defaults), so Python `config.get(k, d)` and
`config[k]` both yield the stored field value. -/
structure Config where
  OLLAMA_BASE_URL : String
  OPENAI_API_KEY : String
  OPENAI_BASE_URL : String
  PRIMARY_MODEL : String
  SECONDARY_MODEL : String
  EMBEDDING_MODEL : String
  summaryPrompt : String
  summaryOptions : List (String × Json)

/-- The provider test repeated inline by each factory operation
(client_factory.py lines 28, 50, 72):
`config.get("OPENAI_API_KEY") and config["OPENAI_API_KEY"] != "&nbsp;"` —
with the key always present in the record, Python truthiness of the string
means non-empty, so the test is: non-empty and not the placeholder. -/
def openaiKeyConfigured (c : Config) : Bool :=
  (c.OPENAI_API_KEY != "") && (c.OPENAI_API_KEY != "&nbsp;")

/-- Result of `get_client` (client_factory.py lines 39–59): either an OpenAI
`Client` or an Ollama client. -/
inductive SyncClientChoice where
  | openai : Client → SyncClientChoice
  | ollama : OllamaClient → SyncClientChoice

/-- Result of `get_async_client` (client_factory.py lines 17–37). -/
inductive AsyncClientChoice where
  | openai : AsyncClient → AsyncClientChoice
  | ollama : AsyncOllamaClient → AsyncClientChoice

/-- Result of `get_embedding_function` (client_factory.py lines 61–85). -/
inductive EmbeddingFunctionChoice where
  | openai : OpenAIEmbeddingFunction → EmbeddingFunctionChoice
  | ollama : OllamaEmbeddingFunction → EmbeddingFunctionChoice

/-- `get_client(config)` (client_factory.py lines 39–59): if the OpenAI key is
configured, `Client(host=config.get("OPENAI_BASE_URL", ...), api_key=...)`;
otherwise `OllamaClient(host=config["OLLAMA_BASE_URL"])`. -/
def get_client (c : Config) : SyncClientChoice :=
  if openaiKeyConfigured c then
    .openai (Client.init c.OPENAI_BASE_URL c.OPENAI_API_KEY)
  else
    .ollama ⟨c.OLLAMA_BASE_URL⟩

/-- `get_async_client(config)` (client_factory.py lines 17–37). -/
def get_async_client (c : Config) : AsyncClientChoice :=
  if openaiKeyConfigured c then
    .openai (AsyncClient.init c.OPENAI_BASE_URL c.OPENAI_API_KEY)
  else
    .ollama ⟨c.OLLAMA_BASE_URL⟩

/-- `get_embedding_function(config)` (client_factory.py lines 61–85): the
OpenAI branch passes key, embedding model and base URL; the Ollama branch
passes `url=f"{config['OLLAMA_BASE_URL']}/api/embeddings"` and the embedding
model name. -/
def get_embedding_function (c : Config) : EmbeddingFunctionChoice :=
  if openaiKeyConfigured c then
    .openai (OpenAIEmbeddingFunction.init c.OPENAI_API_KEY c.EMBEDDING_MODEL
      c.OPENAI_BASE_URL)
  else
    .ollama ⟨c.OLLAMA_BASE_URL ++ "/api/embeddings", c.EMBEDDING_MODEL⟩

/-- Whether `get_client` chose the cloud (OpenAI) adapter. -/
def SyncClientChoice.isOpenAI : SyncClientChoice → Bool
  | .openai _ => true
  | .ollama _ => false

/-- Whether `get_async_client` chose the cloud (OpenAI) adapter. -/
def AsyncClientChoice.isOpenAI : AsyncClientChoice → Bool
  | .openai _ => true
  | .ollama _ => false

/-- Whether `get_embedding_function` chose the cloud (OpenAI) adapter. -/
def EmbeddingFunctionChoice.isOpenAI : EmbeddingFunctionChoice → Bool
  | .openai _ => true
  | .ollama _ => false

/-- A concrete 200-status vendor chat body:
`{"choices": [{"message": {"role": "assistant", "content": "hi",
"tool_calls": []}}]}`. -/
def c4Body : Json :=
  .obj [("choices", .arr [ .obj [("message",
    .obj [("role", .str "assistant"), ("content", .str "hi"),
          ("tool_calls", .arr [])])] ])]

/-- A concrete vendor chat body whose first choice's message carries the role
`"system"` rather than `"assistant"`. -/
def c5Body : Json :=
  .obj [("choices", .arr [ .obj [("message",
    .obj [("role", .str "system"), ("content", .str "x")])] ])]

/-- A general successful vendor chat body: one choice whose message has the
given role and content, and a `tool_calls` field only when `toolCalls` is
present. -/
def mkVendorChatBody (role content : String) (toolCalls : Option Json) : Json :=
  .obj [("choices", .arr [ .obj [("message", .obj
    ([("role", .str role), ("content", .str content)] ++
     (match toolCalls with
      | some tc => [("tool_calls", tc)]
      | none => [])))] ])]

/-- A general successful vendor embeddings body: a `data` list of result
objects, the object at each position carrying the embedding at that
position. -/
def mkVendorEmbBody (embs : List Json) : Json :=
  .obj [("data", .arr (embs.map (fun e => Json.obj [("embedding", e)])))]

lemma openaiKeyConfigured_iff (c : Config) :
    openaiKeyConfigured c = true ↔
      (c.OPENAI_API_KEY ≠ "" ∧ c.OPENAI_API_KEY ≠ "&nbsp;") := by
  simp [openaiKeyConfigured]

lemma isOpenAI_get_client (c : Config) :
    (get_client c).isOpenAI = openaiKeyConfigured c := by
  unfold get_client
  split <;> rename_i h <;> simp_all [SyncClientChoice.isOpenAI]

lemma isOpenAI_get_async_client (c : Config) :
    (get_async_client c).isOpenAI = openaiKeyConfigured c := by
  unfold get_async_client
  split <;> rename_i h <;> simp_all [AsyncClientChoice.isOpenAI]

lemma isOpenAI_get_embedding_function (c : Config) :
    (get_embedding_function c).isOpenAI = openaiKeyConfigured c := by
  unfold get_embedding_function
  split <;> rename_i h <;> simp_all [EmbeddingFunctionChoice.isOpenAI]

/-- C1: each of the three factory operations returns the cloud (OpenAI)
adapter iff the config's cloud API key is present, non-empty and not the
placeholder sentinel `"&nbsp;"` (the key is always present in the repo's own
`Config` record, so presence amounts to non-emptiness, matching Python
truthiness of `config.get("OPENAI_API_KEY")`); in every other case each
operation returns the local (Ollama) adapter. -/
theorem factory_selects_cloud_iff_key_configured (c : Config) :
    ((get_client c).isOpenAI = true ↔
      (c.OPENAI_API_KEY ≠ "" ∧ c.OPENAI_API_KEY ≠ "&nbsp;")) ∧
    ((get_async_client c).isOpenAI = true ↔
      (c.OPENAI_API_KEY ≠ "" ∧ c.OPENAI_API_KEY ≠ "&nbsp;")) ∧
    ((get_embedding_function c).isOpenAI = true ↔
      (c.OPENAI_API_KEY ≠ "" ∧ c.OPENAI_API_KEY ≠ "&nbsp;")) ∧
    (¬(c.OPENAI_API_KEY ≠ "" ∧ c.OPENAI_API_KEY ≠ "&nbsp;") →
      get_client c = .ollama ⟨c.OLLAMA_BASE_URL⟩ ∧
      get_async_client c = .ollama ⟨c.OLLAMA_BASE_URL⟩ ∧
      get_embedding_function c =
        .ollama ⟨c.OLLAMA_BASE_URL ++ "/api/embeddings", c.EMBEDDING_MODEL⟩) := by
  have hk : openaiKeyConfigured c = false ↔
      ¬(c.OPENAI_API_KEY ≠ "" ∧ c.OPENAI_API_KEY ≠ "&nbsp;") := by
    rw [← openaiKeyConfigured_iff]
    simp
  refine ⟨?_, ?_, ?_, fun h => ?_⟩
  · rw [isOpenAI_get_client]; exact openaiKeyConfigured_iff c
  · rw [isOpenAI_get_async_client]; exact openaiKeyConfigured_iff c
  · rw [isOpenAI_get_embedding_function]; exact openaiKeyConfigured_iff c
  · have hf : openaiKeyConfigured c = false := hk.mpr h
    exact ⟨by simp [get_client, hf], by simp [get_async_client, hf],
           by simp [get_embedding_function, hf]⟩

/-- Witness for C1: a config whose cloud key is the placeholder `"&nbsp;"`
routes all three factory operations to the local adapter. -/
theorem factory_selects_cloud_iff_key_configured_witness :
    get_client ⟨"u", "&nbsp;", "b", "p", "s", "e", "sp", []⟩ =
      SyncClientChoice.ollama ⟨"u"⟩ ∧
    get_async_client ⟨"u", "&nbsp;", "b", "p", "s", "e", "sp", []⟩ =
      AsyncClientChoice.ollama ⟨"u"⟩ ∧
    get_embedding_function ⟨"u", "&nbsp;", "b", "p", "s", "e", "sp", []⟩ =
      EmbeddingFunctionChoice.ollama ⟨"u" ++ "/api/embeddings", "e"⟩ :=
  (factory_selects_cloud_iff_key_configured
    ⟨"u", "&nbsp;", "b", "p", "s", "e", "sp", []⟩).2.2.2 (by decide)

lemma async_chatRequest_core_lookups (model : String) (messages : List Json)
    (options : Option (List (String × Json)))
    (format : Option (List (String × Json))) (tools : Option (List Json)) :
    pyDictLookup (AsyncClient.chatRequestData model messages options format tools)
        "temperature" = some (pyDictGet (options.getD []) "temperature" (.num 0.7)) ∧
    pyDictLookup (AsyncClient.chatRequestData model messages options format tools)
        "max_tokens" = some (pyDictGet (options.getD []) "num_predict" .null) := by
  unfold AsyncClient.chatRequestData
  cases hf : pyTruthyDict format <;> cases ht : pyTruthyList tools <;>
    exact ⟨rfl, rfl⟩

lemma sync_chatRequest_core_lookups (model : String) (messages : List Json)
    (options : Option (List (String × Json)))
    (format : Option (List (String × Json))) (tools : Option (List Json)) :
    pyDictLookup (Client.chatRequestData model messages options format tools)
        "temperature" = some (pyDictGet (options.getD []) "temperature" (.num 0.7)) ∧
    pyDictLookup (Client.chatRequestData model messages options format tools)
        "max_tokens" = some (pyDictGet (options.getD []) "num_predict" .null) := by
  unfold Client.chatRequestData
  cases hf : pyTruthyDict format <;> cases ht : pyTruthyList tools <;>
    exact ⟨rfl, rfl⟩

/-- Counterexample to C2: with `num_predict` absent from the options, the
translated request is not missing the `max_tokens` field — both chat variants
send it with the JSON value `null` (Python `options.get("num_predict", None)`
always stores the key). -/
theorem max_tokens_field_present_as_null :
    pyDictLookup (AsyncClient.chatRequestData "m" [] none none none)
      "max_tokens" = some Json.null ∧
    pyDictLookup (Client.chatRequestData "m" [] none none none)
      "max_tokens" = some Json.null := ⟨rfl, rfl⟩

/-- C2 (amended): the translated request carries `temperature` equal to
`options["temperature"]` (0.7 when absent) and `max_tokens` equal to
`options["num_predict"]` when that key is present; when `"num_predict"` is
absent the `max_tokens` field is still sent, with the value `null`, rather
than being omitted. -/
theorem chat_request_option_mapping (model : String) (messages : List Json)
    (options : Option (List (String × Json)))
    (format : Option (List (String × Json))) (tools : Option (List Json)) :
    (∀ v, pyDictLookup (options.getD []) "temperature" = some v →
      pyDictLookup (AsyncClient.chatRequestData model messages options format tools)
          "temperature" = some v ∧
      pyDictLookup (Client.chatRequestData model messages options format tools)
          "temperature" = some v) ∧
    (pyDictLookup (options.getD []) "temperature" = none →
      pyDictLookup (AsyncClient.chatRequestData model messages options format tools)
          "temperature" = some (.num 0.7) ∧
      pyDictLookup (Client.chatRequestData model messages options format tools)
          "temperature" = some (.num 0.7)) ∧
    (∀ v, pyDictLookup (options.getD []) "num_predict" = some v →
      pyDictLookup (AsyncClient.chatRequestData model messages options format tools)
          "max_tokens" = some v ∧
      pyDictLookup (Client.chatRequestData model messages options format tools)
          "max_tokens" = some v) ∧
    (pyDictLookup (options.getD []) "num_predict" = none →
      pyDictLookup (AsyncClient.chatRequestData model messages options format tools)
          "max_tokens" = some Json.null ∧
      pyDictLookup (Client.chatRequestData model messages options format tools)
          "max_tokens" = some Json.null) := by
  obtain ⟨ta, ma⟩ := async_chatRequest_core_lookups model messages options format tools
  obtain ⟨ts, ms⟩ := sync_chatRequest_core_lookups model messages options format tools
  refine ⟨fun v hv => ?_, fun hv => ?_, fun v hv => ?_, fun hv => ?_⟩ <;>
    exact ⟨by simp [ta, ma, pyDictGet, hv], by simp [ts, ms, pyDictGet, hv]⟩

/-- Witness for C2 (amended): with `{"temperature": 0.2, "num_predict": 50}`
the request carries `temperature = 0.2` and `max_tokens = 50`; with empty
options it carries `max_tokens = null`. -/
theorem chat_request_option_mapping_witness :
    pyDictLookup (AsyncClient.chatRequestData "m" []
        (some [("temperature", Json.num 0.2), ("num_predict", Json.num 50)])
        none none) "temperature" = some (Json.num 0.2) ∧
    pyDictLookup (AsyncClient.chatRequestData "m" []
        (some [("temperature", Json.num 0.2), ("num_predict", Json.num 50)])
        none none) "max_tokens" = some (Json.num 50) ∧
    pyDictLookup (AsyncClient.chatRequestData "m" [] none none none)
        "max_tokens" = some Json.null :=
  ⟨((chat_request_option_mapping "m" []
      (some [("temperature", Json.num 0.2), ("num_predict", Json.num 50)])
      none none).1 (Json.num 0.2) rfl).1,
   ((chat_request_option_mapping "m" []
      (some [("temperature", Json.num 0.2), ("num_predict", Json.num 50)])
      none none).2.2.1 (Json.num 50) rfl).1,
   ((chat_request_option_mapping "m" [] none none none).2.2.2 rfl).1⟩

/-- Counterexample to C3: the blocking cloud adapter class defines only the
`chat` operation — it has no `embeddings` method, so the two-operation
contract is not offered in both call modes. -/
theorem blocking_client_lacks_embeddings :
    "embeddings" ∈ AsyncClient.methodNames ∧
    "embeddings" ∉ Client.methodNames := by
  decide

/-- C3 (amended): the cloud adapter offers `chat` in both a blocking and a
non-blocking call mode (while `embeddings` exists only on the non-blocking
variant), and for identical inputs the two `chat` variants store the same
construction state, post to the same URL, perform the same request
translation and produce the same canonical result. -/
theorem blocking_chat_matches_async_chat (host key model : String)
    (messages : List Json) (options : Option (List (String × Json)))
    (format : Option (List (String × Json))) (tools : Option (List Json))
    (resp : HttpResponse) :
    (Client.init host key).host = (AsyncClient.init host key).host ∧
    (Client.init host key).headers = (AsyncClient.init host key).headers ∧
    Client.chatUrl (Client.init host key) =
      AsyncClient.chatUrl (AsyncClient.init host key) ∧
    Client.chatRequestData model messages options format tools =
      AsyncClient.chatRequestData model messages options format tools ∧
    Client.chatRespond model resp = AsyncClient.chatRespond model resp :=
  ⟨rfl, rfl, rfl, rfl, rfl⟩

/-- C4: on a 200 vendor response with body
`{"choices": [{"message": {"role": "assistant", "content": "hi",
"tool_calls": []}}]}`, both chat variants return exactly
`{"model": m, "message": {"role": "assistant", "content": "hi"},
"tool_calls": [], "done": true}`. -/
theorem chat_roundtrip_canonical_response (m t : String) :
    AsyncClient.chatRespond m ⟨200, t, c4Body⟩ =
      .ok (.obj [("model", .str m),
                 ("message", .obj [("role", .str "assistant"),
                                   ("content", .str "hi")]),
                 ("tool_calls", .arr []),
                 ("done", .bool true)]) ∧
    Client.chatRespond m ⟨200, t, c4Body⟩ =
      .ok (.obj [("model", .str m),
                 ("message", .obj [("role", .str "assistant"),
                                   ("content", .str "hi")]),
                 ("tool_calls", .arr []),
                 ("done", .bool true)]) :=
  ⟨rfl, rfl⟩

/-- Counterexample to C5: the vendor body `c5Body` carries the role
`"system"` on its first choice's message, yet the canonical response's
message role is the fixed string `"assistant"` — the role is not extracted
from the vendor response. -/
theorem chat_response_role_not_extracted :
    ((c5Body.getField "choices").bind (fun choices =>
      (choices.getIndex 0).bind (fun c0 =>
        (c0.getField "message").bind (fun msg =>
          msg.getField "role")))) = some (Json.str "system") ∧
    AsyncClient.chatRespond "m" ⟨200, "", c5Body⟩ =
      .ok (.obj [("model", .str "m"),
                 ("message", .obj [("role", .str "assistant"),
                                   ("content", .str "x")]),
                 ("tool_calls", .arr []),
                 ("done", .bool true)]) ∧
    Client.chatRespond "m" ⟨200, "", c5Body⟩ =
      .ok (.obj [("model", .str "m"),
                 ("message", .obj [("role", .str "assistant"),
                                   ("content", .str "x")]),
                 ("tool_calls", .arr []),
                 ("done", .bool true)]) ∧
    Json.str "assistant" ≠ Json.str "system" :=
  ⟨rfl, rfl, rfl, by simp⟩

/-- C5 (amended): for every successful vendor chat response, the canonical
message content equals the first choice's message content and its tool_calls
equal that message's tool calls (empty sequence when absent), the completion
flag is always true, and the message role is the fixed string `"assistant"`
regardless of the role the vendor returned. -/
theorem chat_response_translation (model role content t : String)
    (tc : Option Json) :
    AsyncClient.chatRespond model ⟨200, t, mkVendorChatBody role content tc⟩ =
      .ok (.obj [("model", .str model),
                 ("message", .obj [("role", .str "assistant"),
                                   ("content", .str content)]),
                 ("tool_calls", tc.getD (.arr [])),
                 ("done", .bool true)]) ∧
    Client.chatRespond model ⟨200, t, mkVendorChatBody role content tc⟩ =
      .ok (.obj [("model", .str model),
                 ("message", .obj [("role", .str "assistant"),
                                   ("content", .str content)]),
                 ("tool_calls", tc.getD (.arr [])),
                 ("done", .bool true)]) := by
  cases tc <;> exact ⟨rfl, rfl⟩

lemma mapM_getField_embedding (embs : List Json) :
    (embs.map (fun e => Json.obj [("embedding", e)])).mapM
      (fun it => it.getField "embedding") = some embs := by
  induction embs with
  | nil => rfl
  | cons e es ih =>
      rw [List.map_cons, List.mapM_cons, ih]
      rfl

/-- C6: when the vendor returns a `data` list of one result object per input
text, in input order, the embedding function returns exactly that list of
vectors — same length as the input batch, each output position carrying the
vendor's embedding for that position, with no reordering, dropping or
duplication. -/
theorem embed_preserves_order_and_length (texts : List String)
    (embs : List Json) (t : String) (hne : texts ≠ [])
    (hlen : embs.length = texts.length) :
    OpenAIEmbeddingFunction.call texts ⟨200, t, mkVendorEmbBody embs⟩ =
      .ok embs ∧
    embs.length = texts.length := by
  refine ⟨?_, hlen⟩
  obtain ⟨a, l, rfl⟩ : ∃ a l, texts = a :: l := by
    cases texts with
    | nil => exact absurd rfl hne
    | cons a l => exact ⟨a, l, rfl⟩
  have hb : (mkVendorEmbBody embs).getField "data" =
      some (Json.arr (embs.map (fun e => Json.obj [("embedding", e)]))) := rfl
  unfold OpenAIEmbeddingFunction.call
  rw [if_neg (by simp : ¬((a :: l).isEmpty = true)),
      if_neg (by simp : ¬((200 : Nat) ≠ 200)), hb]
  show (match (embs.map (fun e => Json.obj [("embedding", e)])).mapM
          (fun it => it.getField "embedding") with
        | some embeddings => Except.ok embeddings
        | none => Except.error "KeyError") = Except.ok embs
  rw [mapM_getField_embedding]

/-- Witness for C6: a one-text batch whose vendor response carries one
embedding comes back as exactly that one-element list. -/
theorem embed_preserves_order_and_length_witness :
    OpenAIEmbeddingFunction.call ["a"] ⟨200, "", mkVendorEmbBody [Json.num 1]⟩ =
      .ok [Json.num 1] ∧
    ([Json.num 1] : List Json).length = (["a"] : List String).length :=
  embed_preserves_order_and_length ["a"] [Json.num 1] "" (by decide) rfl

/-- C7: on an empty input batch the embedding function returns the empty
list, successfully; the result is the same for every possible vendor response
(including error statuses), because the early return precedes the network
code — no network call is performed. -/
theorem embed_empty_input_returns_empty (resp : HttpResponse) :
    OpenAIEmbeddingFunction.call [] resp = .ok [] := rfl

/-- C8: on a non-200 vendor status, every cloud adapter operation — chat
(both variants), embeddings, and the batch embed call (on a non-empty batch,
the only case in which the request is issued) — fails with a provider error
carrying the vendor's error body, and returns no canonical response value
(the result is `Except.error`, never `Except.ok`). -/
theorem non_success_status_raises_provider_error (model : String)
    (texts : List String) (resp : HttpResponse)
    (hs : resp.status ≠ 200) (hne : texts ≠ []) :
    AsyncClient.chatRespond model resp =
      .error ("OpenAI API error: " ++ resp.text) ∧
    Client.chatRespond model resp =
      .error ("OpenAI API error: " ++ resp.text) ∧
    AsyncClient.embeddingsRespond resp =
      .error ("OpenAI API error: " ++ resp.text) ∧
    OpenAIEmbeddingFunction.call texts resp =
      .error ("OpenAI API error: " ++ resp.text) := by
  obtain ⟨a, l, rfl⟩ : ∃ a l, texts = a :: l := by
    cases texts with
    | nil => exact absurd rfl hne
    | cons a l => exact ⟨a, l, rfl⟩
  refine ⟨?_, ?_, ?_, ?_⟩
  · simp [AsyncClient.chatRespond, hs]
  · simp [Client.chatRespond, hs]
  · simp [AsyncClient.embeddingsRespond, hs]
  · simp [OpenAIEmbeddingFunction.call, hs]

/-- Witness for C8: a 500 response with body text `"bad"` makes all four
operations fail with the provider error carrying `"bad"`. -/
theorem non_success_status_raises_provider_error_witness :
    AsyncClient.chatRespond "m" ⟨500, "bad", Json.null⟩ =
      .error ("OpenAI API error: " ++ "bad") ∧
    Client.chatRespond "m" ⟨500, "bad", Json.null⟩ =
      .error ("OpenAI API error: " ++ "bad") ∧
    AsyncClient.embeddingsRespond ⟨500, "bad", Json.null⟩ =
      .error ("OpenAI API error: " ++ "bad") ∧
    OpenAIEmbeddingFunction.call ["x"] ⟨500, "bad", Json.null⟩ =
      .error ("OpenAI API error: " ++ "bad") :=
  non_success_status_raises_provider_error "m" ["x"] ⟨500, "bad", Json.null⟩
    (by decide) (by decide)

/-- Counterexample to C9: with the cloud key unset and the local base-URL
entry empty, `get_client` and `get_embedding_function` do not fail — each
returns a local adapter bound to the empty endpoint (the URL of the returned
embedding function is built from the empty base). -/
theorem factory_empty_local_url_constructs_adapter :
    get_client ⟨"", "", "https://api.openai.com/v1", "", "", "", "", []⟩ =
      SyncClientChoice.ollama ⟨""⟩ ∧
    get_embedding_function
        ⟨"", "", "https://api.openai.com/v1", "", "", "", "", []⟩ =
      EmbeddingFunctionChoice.ollama ⟨"/api/embeddings", ""⟩ :=
  ⟨rfl, rfl⟩

/-- C9 (amended): when the factory selects the local provider and the
config's local base-URL entry is empty, construction succeeds and returns a
local adapter bound to the empty endpoint — the failure is deferred to
request time rather than raised at construction. -/
theorem factory_empty_local_url_returns_local_adapter (c : Config)
    (hkey : c.OPENAI_API_KEY = "") (hurl : c.OLLAMA_BASE_URL = "") :
    get_client c = SyncClientChoice.ollama ⟨""⟩ ∧
    get_async_client c = AsyncClientChoice.ollama ⟨""⟩ ∧
    get_embedding_function c =
      EmbeddingFunctionChoice.ollama ⟨"/api/embeddings", c.EMBEDDING_MODEL⟩ := by
  have hf : openaiKeyConfigured c = false := by
    simp [openaiKeyConfigured, hkey]
  refine ⟨?_, ?_, ?_⟩ <;>
    simp [get_client, get_async_client, get_embedding_function, hf, hurl]

/-- Witness for C9 (amended): a concrete config with empty cloud key and
empty local base URL yields local adapters bound to the empty endpoint. -/
theorem factory_empty_local_url_returns_local_adapter_witness :
    get_client ⟨"", "", "b", "p", "s", "e", "sp", []⟩ =
      SyncClientChoice.ollama ⟨""⟩ ∧
    get_async_client ⟨"", "", "b", "p", "s", "e", "sp", []⟩ =
      AsyncClientChoice.ollama ⟨""⟩ ∧
    get_embedding_function ⟨"", "", "b", "p", "s", "e", "sp", []⟩ =
      EmbeddingFunctionChoice.ollama ⟨"/api/embeddings", "e"⟩ :=
  factory_empty_local_url_returns_local_adapter
    ⟨"", "", "b", "p", "s", "e", "sp", []⟩ rfl rfl

lemma dropWhile_replicate_append {α : Type} (p : α → Bool) (c : α)
    (h : p c = true) (n : Nat) (l : List α) :
    List.dropWhile p (List.replicate n c ++ l) = List.dropWhile p l := by
  induction n with
  | zero => rfl
  | succ k ih =>
      rw [List.replicate_succ, List.cons_append, List.dropWhile_cons_of_pos h, ih]

lemma pyRstripSlash_append_slashes (s : String) (n : Nat) :
    pyRstripSlash (s ++ String.mk (List.replicate n '/')) = pyRstripSlash s := by
  cases s with
  | mk data =>
      unfold pyRstripSlash
      have hd : (String.mk data ++ String.mk (List.replicate n '/')).data =
          data ++ List.replicate n '/' := rfl
      rw [hd, List.reverse_append, List.reverse_replicate,
          dropWhile_replicate_append _ _ rfl]

/-- C10: constructing a cloud adapter (either chat client variant or the
embedding function) from a base URL with trailing `'/'` characters appended
yields the very same adapter state as constructing from the bare URL — the
stored host is normalized by stripping trailing slashes — so the request
URLs the adapters build are identical. -/
theorem trailing_slash_normalization (host key model : String) (n : Nat) :
    AsyncClient.init (host ++ String.mk (List.replicate n '/')) key =
      AsyncClient.init host key ∧
    Client.init (host ++ String.mk (List.replicate n '/')) key =
      Client.init host key ∧
    OpenAIEmbeddingFunction.init key model
        (host ++ String.mk (List.replicate n '/')) =
      OpenAIEmbeddingFunction.init key model host ∧
    (AsyncClient.init (host ++ String.mk (List.replicate n '/')) key).chatUrl =
      (AsyncClient.init host key).chatUrl ∧
    (AsyncClient.init (host ++ String.mk (List.replicate n '/')) key).embeddingsUrl =
      (AsyncClient.init host key).embeddingsUrl ∧
    (Client.init (host ++ String.mk (List.replicate n '/')) key).chatUrl =
      (Client.init host key).chatUrl ∧
    (OpenAIEmbeddingFunction.init key model
        (host ++ String.mk (List.replicate n '/'))).embeddingsUrl =
      (OpenAIEmbeddingFunction.init key model host).embeddingsUrl := by
  have h := pyRstripSlash_append_slashes host n
  refine ⟨?_, ?_, ?_, ?_, ?_, ?_, ?_⟩ <;>
    simp [AsyncClient.init, Client.init, OpenAIEmbeddingFunction.init,
      AsyncClient.chatUrl, AsyncClient.embeddingsUrl, Client.chatUrl,
      OpenAIEmbeddingFunction.embeddingsUrl, h]
